import Mathlib

/-!
Shallow embedding of the solana-escrow initialization core
(src/processor.rs together with the escrow record of src/state.rs) and
proofs of the specified properties.

Modelling conventions:
- machine bytes and u64 values are `Nat` with explicit bounds (`< 256`,
  `< 2 ^ 64`) where they matter;
- a public key is a list of 32 bytes;
- fallible operations return `Except ProgramError`;
- the external collaborators (rent sysvar decoding, program-derived
  address computation, the cross-program invocation of the custody
  service) are parameters collected in an `Env` record;
- the processor is written as a function from the inputs to a result
  together with an `Effects` record listing the buffer write and the
  external authority-change calls it performed, in order; a separate
  `hostExecute` commits those effects only when the instruction
  succeeded, reflecting the all-or-nothing execution the ledger host
  guarantees.
-/

/-- Errors surfaced by the processor, mirroring the
`solana_program::program_error::ProgramError` variants the source uses,
plus an `External` code for failures reported by the invoked custody
service. -/
inductive ProgramError where
  | MissingRequiredSignature
  | IncorrectProgramId
  | AccountNotRentExempt
  | AccountAlreadyInitialized
  | InvalidAccountData
  | InvalidInstructionData
  | NotEnoughAccountKeys
  | External (code : Nat)
  deriving DecidableEq, Repr

instance {ε α : Type _} [DecidableEq ε] [DecidableEq α] :
    DecidableEq (Except ε α) := fun a b =>
  match a, b with
  | .error x, .error y => decidable_of_iff (x = y) (by simp)
  | .error _, .ok _ => isFalse (fun h => Except.noConfusion h)
  | .ok _, .error _ => isFalse (fun h => Except.noConfusion h)
  | .ok x, .ok y => decidable_of_iff (x = y) (by simp)

/-- A public key: 32 bytes. -/
abbrev Pubkey := List Nat

/-- A pubkey is well formed when it has exactly 32 bytes, each below 256. -/
def ValidPubkey (k : Pubkey) : Prop :=
  k.length = 32 ∧ ∀ b ∈ k, b < 256

instance : DecidablePred ValidPubkey := fun k =>
  inferInstanceAs (Decidable (k.length = 32 ∧ ∀ b ∈ k, b < 256))

/-- Little-endian byte encoding of `n` into `k` bytes. -/
def u64ToLe : Nat → Nat → List Nat
  | 0, _ => []
  | k + 1, n => n % 256 :: u64ToLe k (n / 256)

/-- Value of a little-endian byte list. -/
def leToNat : List Nat → Nat
  | [] => 0
  | b :: bs => b + 256 * leToNat bs

/-- The escrow record, exactly the struct of src/state.rs. -/
structure Escrow where
  is_initialized : Bool
  initializer_pubkey : Pubkey
  temp_token_account_pubkey : Pubkey
  initializer_token_to_receive_account_pubkey : Pubkey
  expected_amount : Nat
  deriving DecidableEq, Repr

namespace Escrow

/-- Fixed encoded width of the record: 1 flag byte, three 32-byte
identifiers, an 8-byte little-endian amount. -/
def LEN : Nat := 105

/-- A record is valid when its identifiers are 32-byte keys and the
amount fits in a u64. -/
def Valid (e : Escrow) : Prop :=
  ValidPubkey e.initializer_pubkey ∧
  ValidPubkey e.temp_token_account_pubkey ∧
  ValidPubkey e.initializer_token_to_receive_account_pubkey ∧
  e.expected_amount < 2 ^ 64

/-- Modelled from the spec: src/state.rs declares the `Escrow` struct but
its `Pack` implementation (the record codec) is not under src/; the
fixed-width positional layout is taken from the spec: initialized flag,
then the three identifiers in declaration order, then the 8-byte
little-endian amount. -/
def encodeBytes (e : Escrow) : List Nat :=
  (if e.is_initialized then 1 else 0) ::
    (e.initializer_pubkey ++
      (e.temp_token_account_pubkey ++
        (e.initializer_token_to_receive_account_pubkey ++
          u64ToLe 8 e.expected_amount)))

/-- Modelled from the spec: `encode` writes the fixed-width record at the
start of the buffer, leaving later bytes unchanged, and fails with a
size-mismatch error if the buffer is smaller than the encoded width. -/
def pack (e : Escrow) (buf : List Nat) : Except ProgramError (List Nat) :=
  if buf.length < LEN then .error .InvalidAccountData
  else .ok (encodeBytes e ++ buf.drop LEN)

/-- Modelled from the spec: `decode_unchecked` reads the fixed-width
positional fields, is total over any byte pattern of sufficient length
(a zero flag byte means uninitialized, any nonzero byte initialized),
and fails with a size-mismatch error on a buffer smaller than the
encoded width. -/
def unpack_unchecked (buf : List Nat) : Except ProgramError Escrow :=
  if buf.length < LEN then .error .InvalidAccountData
  else .ok
    { is_initialized := buf.headI != 0
      initializer_pubkey := (buf.drop 1).take 32
      temp_token_account_pubkey := (buf.drop 33).take 32
      initializer_token_to_receive_account_pubkey := (buf.drop 65).take 32
      expected_amount := leToNat ((buf.drop 97).take 8) }

end Escrow

/-- The instruction set: the source defines the single variant
`InitEscrow { amount }`. -/
inductive EscrowInstruction where
  | InitEscrow (amount : Nat)
  deriving DecidableEq, Repr

namespace EscrowInstruction

/-- Modelled from the spec: instruction.rs is not under src/; the wire
format is a leading tag byte identifying the variant (tag 0 is
`InitEscrow`) followed by a little-endian 8-byte unsigned amount; any
other tag, an empty payload, or a payload shorter than 9 bytes for the
known tag yields `InvalidInstructionData`. -/
def unpack (input : List Nat) : Except ProgramError EscrowInstruction :=
  match input with
  | [] => .error .InvalidInstructionData
  | tag :: rest =>
    if tag = 0 then
      if rest.length < 8 then .error .InvalidInstructionData
      else .ok (.InitEscrow (leToNat (rest.take 8)))
    else .error .InvalidInstructionData

end EscrowInstruction

/-- An account reference: key, signer flag, owner, balance and raw data,
as the processor reads them from `AccountInfo`. -/
structure AccountInfo where
  key : Pubkey
  is_signer : Bool
  owner : Pubkey
  lamports : Nat
  data : List Nat
  deriving DecidableEq, Repr

/-- The authority kinds of the custody (SPL token) service; the source
uses only `AccountOwner`. -/
inductive AuthorityType where
  | MintTokens
  | FreezeAccount
  | AccountOwner
  | CloseAccount
  deriving DecidableEq, Repr

/-- One authority-change call handed to the custody service, carrying the
arguments the source passes to `spl_token::instruction::set_authority`. -/
structure SetAuthorityCall where
  token_program : Pubkey
  account : Pubkey
  new_authority : Option Pubkey
  authority_type : AuthorityType
  current_authority : Pubkey
  signers : List Pubkey
  deriving DecidableEq, Repr

/-- The effects the core performs eagerly while it runs: the write into
the escrow-record account data buffer, and the custody-service calls it
issued, in order. -/
structure Effects where
  escrowWrite : Option (List Nat)
  calls : List SetAuthorityCall
  deriving DecidableEq, Repr

/-- No effects performed. -/
def noEffects : Effects := { escrowWrite := none, calls := [] }

/-- External collaborators, supplied by the host:
`rentFromAccount` decodes the rent sysvar account into the exemption
predicate over (balance, data length); `findPda` is program-derived
address computation from seeds and program identity, returning the
address and bump seed; `invoke` executes an authority-change call in the
custody service and reports its outcome. -/
structure Env where
  rentFromAccount : AccountInfo → Except ProgramError (Nat → Nat → Bool)
  findPda : List (List Nat) → Pubkey → Pubkey × Nat
  invoke : SetAuthorityCall → Except ProgramError Unit

/-- The identity of the custody (SPL token) service, an external
constant; its concrete value is irrelevant, only equality with it is
ever tested. -/
def spl_token_id : Pubkey := List.replicate 32 7

/-- The seed bytes of the PDA derivation, the ASCII of "escrow". -/
def escrowSeed : List Nat := [101, 115, 99, 114, 111, 119]

/-- `next_account_info`: take the next account off the iterator, failing
with `NotEnoughAccountKeys` when the list is exhausted. -/
def next_account_info (l : List AccountInfo) :
    Except ProgramError (AccountInfo × List AccountInfo) :=
  match l with
  | [] => .error .NotEnoughAccountKeys
  | a :: rest => .ok (a, rest)

/-- `spl_token::instruction::set_authority`: builds the authority-change
call; the library rejects a token-program identity other than the
custody service with `IncorrectProgramId`. -/
def set_authority (token_program_id account : Pubkey)
    (new_authority : Option Pubkey) (authority_type : AuthorityType)
    (owner : Pubkey) (signers : List Pubkey) :
    Except ProgramError SetAuthorityCall :=
  if token_program_id = spl_token_id then
    .ok { token_program := token_program_id, account := account
          new_authority := new_authority, authority_type := authority_type
          current_authority := owner, signers := signers }
  else .error .IncorrectProgramId

namespace Processor

/-- `Processor::process_init_escrow` of src/processor.rs, step for step:
consume the initializer and check it signs; consume the temporary custody
account (no check); consume the expected-receive account and check its
owner is the custody service; consume the escrow account; consume the
rent sysvar, decode it and check rent exemption of the escrow account;
decode the record and reject if already initialized; populate and pack
the record; derive the PDA; consume the token-program account; build the
authority-change call and invoke it. The `Effects` component records the
buffer write and the calls actually performed before any failure. -/
def process_init_escrow (env : Env) (accounts : List AccountInfo)
    (amount : Nat) (program_id : Pubkey) :
    Except ProgramError Unit × Effects :=
  match next_account_info accounts with
  | .error e => (.error e, noEffects)
  | .ok (initializer, rest1) =>
    if !initializer.is_signer then
      (.error .MissingRequiredSignature, noEffects)
    else match next_account_info rest1 with
    | .error e => (.error e, noEffects)
    | .ok (temp_token_account, rest2) =>
      match next_account_info rest2 with
      | .error e => (.error e, noEffects)
      | .ok (token_to_receive_account, rest3) =>
        if token_to_receive_account.owner ≠ spl_token_id then
          (.error .IncorrectProgramId, noEffects)
        else match next_account_info rest3 with
        | .error e => (.error e, noEffects)
        | .ok (escrow_account, rest4) =>
          match next_account_info rest4 with
          | .error e => (.error e, noEffects)
          | .ok (rent_account, rest5) =>
            match env.rentFromAccount rent_account with
            | .error e => (.error e, noEffects)
            | .ok is_exempt =>
              if !is_exempt escrow_account.lamports escrow_account.data.length then
                (.error .AccountNotRentExempt, noEffects)
              else match Escrow.unpack_unchecked escrow_account.data with
              | .error e => (.error e, noEffects)
              | .ok escrow_info0 =>
                if escrow_info0.is_initialized then
                  (.error .AccountAlreadyInitialized, noEffects)
                else
                  let escrow_info : Escrow :=
                    { is_initialized := true
                      initializer_pubkey := initializer.key
                      temp_token_account_pubkey := temp_token_account.key
                      initializer_token_to_receive_account_pubkey :=
                        token_to_receive_account.key
                      expected_amount := amount }
                  match Escrow.pack escrow_info escrow_account.data with
                  | .error e => (.error e, noEffects)
                  | .ok newData =>
                    let eff1 : Effects := { escrowWrite := some newData, calls := [] }
                    let pda := (env.findPda [escrowSeed] program_id).1
                    match next_account_info rest5 with
                    | .error e => (.error e, eff1)
                    | .ok (token_program, _rest6) =>
                      match set_authority token_program.key
                          temp_token_account.key (some pda)
                          AuthorityType.AccountOwner initializer.key
                          [initializer.key] with
                      | .error e => (.error e, eff1)
                      | .ok call =>
                        match env.invoke call with
                        | .error e =>
                          (.error e, { escrowWrite := some newData, calls := [call] })
                        | .ok _ =>
                          (.ok (), { escrowWrite := some newData, calls := [call] })

/-- `Processor::process`: decode the instruction payload and dispatch. -/
def process (env : Env) (program_id : Pubkey) (accounts : List AccountInfo)
    (instruction_data : List Nat) : Except ProgramError Unit × Effects :=
  match EscrowInstruction.unpack instruction_data with
  | .error e => (.error e, noEffects)
  | .ok (.InitEscrow amount) => process_init_escrow env accounts amount program_id

end Processor

/-- Apply the staged effects to the account list: the escrow-record
account is the fourth account, so a staged buffer write replaces its
data. -/
def commitEffects (eff : Effects) (accounts : List AccountInfo) :
    List AccountInfo :=
  match eff.escrowWrite with
  | none => accounts
  | some d =>
    accounts.mapIdx (fun i a => if i = 3 then { a with data := d } else a)

/-- The host boundary: run the instruction and commit its buffer writes
and external calls only when it succeeded; a failed instruction is
discarded whole, leaving the accounts untouched and no call effective. -/
def hostExecute (env : Env) (program_id : Pubkey)
    (accounts : List AccountInfo) (instruction_data : List Nat) :
    List AccountInfo × List SetAuthorityCall :=
  match Processor.process env program_id accounts instruction_data with
  | (.ok _, eff) => (commitEffects eff accounts, eff.calls)
  | (.error _, _) => (accounts, [])

/-- The record the processor persists for three given accounts and an
amount: initialized, the three keys in order, the amount. -/
def initRecord (a0 a1 a2 : AccountInfo) (amount : Nat) : Escrow :=
  { is_initialized := true
    initializer_pubkey := a0.key
    temp_token_account_pubkey := a1.key
    initializer_token_to_receive_account_pubkey := a2.key
    expected_amount := amount }

/-- The authority-change call the processor issues: to the supplied
token-program account, retargeting the temporary custody account to the
derived program address, authorized by the initializer. -/
def initEscrowCall (env : Env) (pid : Pubkey) (a0 a1 a5 : AccountInfo) :
    SetAuthorityCall :=
  { token_program := a5.key
    account := a1.key
    new_authority := some (env.findPda [escrowSeed] pid).1
    authority_type := .AccountOwner
    current_authority := a0.key
    signers := [a0.key] }

/-- A sample 32-byte key filled with one byte value. -/
def samplePk (b : Nat) : Pubkey := List.replicate 32 b

/-- A sample program identity. -/
def pidw : Pubkey := samplePk 11

/-- A concrete environment: the rent sysvar decodes to the predicate
requiring ten units of balance per byte of data, PDA derivation is a
fixed computable function, and the custody service accepts every call. -/
def testEnv : Env :=
  { rentFromAccount := fun _ => .ok fun lam len => decide (len * 10 ≤ lam)
    findPda := fun _ pid => (pid.map fun b => (b + 1) % 256, 255)
    invoke := fun _ => .ok () }

/-- A signing initializer account. -/
def initializerAcct : AccountInfo :=
  { key := samplePk 1, is_signer := true, owner := samplePk 8
    lamports := 5, data := [] }

/-- The same initializer without a signature. -/
def nonSignerAcct : AccountInfo := { initializerAcct with is_signer := false }

/-- A temporary custody account. -/
def tempAcct : AccountInfo :=
  { key := samplePk 2, is_signer := false, owner := samplePk 8
    lamports := 5, data := [] }

/-- An expected-receive account owned by the custody service. -/
def receiveAcct : AccountInfo :=
  { key := samplePk 3, is_signer := false, owner := spl_token_id
    lamports := 5, data := [] }

/-- An expected-receive account owned by some other program. -/
def badReceiveAcct : AccountInfo := { receiveAcct with owner := samplePk 9 }

/-- A fresh zeroed escrow-record account with ample balance. -/
def escrowAcct : AccountInfo :=
  { key := samplePk 4, is_signer := false, owner := samplePk 8
    lamports := 100000, data := List.replicate 105 0 }

/-- An escrow-record account whose record is already initialized. -/
def escrowAcctInit : AccountInfo :=
  { escrowAcct with data := 1 :: List.replicate 104 0 }

/-- An escrow-record account with a balance below the exemption
threshold and a buffer too short to decode at all. -/
def poorEscrowAcct : AccountInfo :=
  { escrowAcct with lamports := 3, data := [1, 2, 3] }

/-- A rent sysvar account. -/
def rentAcct : AccountInfo :=
  { key := samplePk 5, is_signer := false, owner := samplePk 8
    lamports := 5, data := [] }

/-- The custody-service program account. -/
def tokenProgAcct : AccountInfo :=
  { key := spl_token_id, is_signer := false, owner := samplePk 8
    lamports := 5, data := [] }

/-! ### Codec lemmas -/

theorem u64ToLe_length : ∀ (k n : Nat), (u64ToLe k n).length = k
  | 0, _ => rfl
  | k + 1, n => by simp [u64ToLe, u64ToLe_length k]

theorem leToNat_u64ToLe : ∀ (k n : Nat), n < 256 ^ k →
    leToNat (u64ToLe k n) = n
  | 0, n, h => by simp [u64ToLe, leToNat]; omega
  | k + 1, n, h => by
    have hdiv : n / 256 < 256 ^ k := by
      rw [Nat.div_lt_iff_lt_mul (by norm_num)]
      calc n < 256 ^ (k + 1) := h
        _ = 256 ^ k * 256 := by rw [pow_succ]
    simp [u64ToLe, leToNat, leToNat_u64ToLe k (n / 256) hdiv]
    omega

/-- Decoding the fields back out of an encoded record prepended to any
residue: each positional slice recovers the corresponding field. -/
theorem unpack_encodeBytes_append (e : Escrow) (d : List Nat)
    (hv : e.Valid) :
    Escrow.unpack_unchecked (Escrow.encodeBytes e ++ d) = Except.ok e := by
  obtain ⟨⟨h1, _⟩, ⟨h2, _⟩, ⟨h3, _⟩, ha⟩ := hv
  obtain ⟨i, p1, p2, p3, a⟩ := e
  simp only [Escrow.Valid] at *
  have hamt : (u64ToLe 8 a).length = 8 := u64ToLe_length 8 a
  -- the encoded buffer in several association shapes
  have hb1 : Escrow.encodeBytes ⟨i, p1, p2, p3, a⟩ ++ d =
      [if i then 1 else 0] ++ (p1 ++ (p2 ++ (p3 ++ (u64ToLe 8 a ++ d)))) := by
    simp [Escrow.encodeBytes, List.append_assoc]
  have hb33 : Escrow.encodeBytes ⟨i, p1, p2, p3, a⟩ ++ d =
      ([if i then 1 else 0] ++ p1) ++ (p2 ++ (p3 ++ (u64ToLe 8 a ++ d))) := by
    simp [Escrow.encodeBytes, List.append_assoc]
  have hb65 : Escrow.encodeBytes ⟨i, p1, p2, p3, a⟩ ++ d =
      (([if i then 1 else 0] ++ p1) ++ p2) ++ (p3 ++ (u64ToLe 8 a ++ d)) := by
    simp [Escrow.encodeBytes, List.append_assoc]
  have hb97 : Escrow.encodeBytes ⟨i, p1, p2, p3, a⟩ ++ d =
      ((([if i then 1 else 0] ++ p1) ++ p2) ++ p3) ++ (u64ToLe 8 a ++ d) := by
    simp [Escrow.encodeBytes, List.append_assoc]
  have hlen : (Escrow.encodeBytes ⟨i, p1, p2, p3, a⟩ ++ d).length =
      Escrow.LEN + d.length := by
    simp [Escrow.encodeBytes, Escrow.LEN, h1, h2, h3, hamt]
    omega
  have hd1 : (Escrow.encodeBytes ⟨i, p1, p2, p3, a⟩ ++ d).drop 1 =
      p1 ++ (p2 ++ (p3 ++ (u64ToLe 8 a ++ d))) := by
    rw [hb1]; exact List.drop_left' (by simp)
  have hd33 : (Escrow.encodeBytes ⟨i, p1, p2, p3, a⟩ ++ d).drop 33 =
      p2 ++ (p3 ++ (u64ToLe 8 a ++ d)) := by
    rw [hb33]; exact List.drop_left' (by simp [h1])
  have hd65 : (Escrow.encodeBytes ⟨i, p1, p2, p3, a⟩ ++ d).drop 65 =
      p3 ++ (u64ToLe 8 a ++ d) := by
    rw [hb65]; exact List.drop_left' (by simp [h1, h2])
  have hd97 : (Escrow.encodeBytes ⟨i, p1, p2, p3, a⟩ ++ d).drop 97 =
      u64ToLe 8 a ++ d := by
    rw [hb97]; exact List.drop_left' (by simp [h1, h2, h3])
  have hhead : (Escrow.encodeBytes ⟨i, p1, p2, p3, a⟩ ++ d).headI =
      (if i then 1 else 0) := by
    simp [Escrow.encodeBytes]
  rw [Escrow.unpack_unchecked, if_neg (by rw [hlen]; omega)]
  rw [hd1, hd33, hd65, hd97, hhead]
  rw [List.take_left' h1, List.take_left' h2, List.take_left' h3,
    List.take_left' hamt]
  have hval : leToNat (u64ToLe 8 a) = a :=
    leToNat_u64ToLe 8 a (by norm_num at ha ⊢; exact ha)
  cases i <;> simp [hval]

/-- Decoding a payload consisting of the `InitEscrow` tag followed by the
8-byte little-endian amount recovers the amount. -/
theorem unpack_init_data (amount : Nat) (h : amount < 2 ^ 64) :
    EscrowInstruction.unpack (0 :: u64ToLe 8 amount) =
      Except.ok (.InitEscrow amount) := by
  have hlen : (u64ToLe 8 amount).length = 8 := u64ToLe_length 8 amount
  have htake : (u64ToLe 8 amount).take 8 = u64ToLe 8 amount :=
    List.take_of_length_le (by rw [hlen])
  have hpow : (256 : Nat) ^ 8 = 2 ^ 64 := by norm_num
  have hval : leToNat (u64ToLe 8 amount) = amount :=
    leToNat_u64ToLe 8 amount (by rw [hpow]; exact h)
  simp [EscrowInstruction.unpack, hlen, htake, hval]

/-- Characterization of the success path of `process_init_escrow`: when
every guard passes, the result is success, the staged buffer write is
the encoding of the populated record over the old buffer tail, and
exactly one authority-change call was issued. -/
theorem process_init_escrow_ok_eq (env : Env) (pid : Pubkey) (amount : Nat)
    (a0 a1 a2 a3 a4 a5 : AccountInfo) (rest : List AccountInfo)
    (f : Nat → Nat → Bool)
    (hs : a0.is_signer = true)
    (hown : a2.owner = spl_token_id)
    (hrent : env.rentFromAccount a4 = .ok f)
    (hexempt : f a3.lamports a3.data.length = true)
    (hsize : Escrow.LEN ≤ a3.data.length)
    (hflag : a3.data.headI = 0)
    (htp : a5.key = spl_token_id)
    (hinv : env.invoke (initEscrowCall env pid a0 a1 a5) = .ok ()) :
    Processor.process_init_escrow env (a0 :: a1 :: a2 :: a3 :: a4 :: a5 :: rest)
        amount pid =
      (.ok (),
        { escrowWrite := some (Escrow.encodeBytes (initRecord a0 a1 a2 amount)
            ++ a3.data.drop Escrow.LEN)
          calls := [initEscrowCall env pid a0 a1 a5] }) := by
  have hnlt : ¬ a3.data.length < Escrow.LEN := by omega
  have hup : Escrow.unpack_unchecked a3.data = .ok
      { is_initialized := a3.data.headI != 0
        initializer_pubkey := (a3.data.drop 1).take 32
        temp_token_account_pubkey := (a3.data.drop 33).take 32
        initializer_token_to_receive_account_pubkey := (a3.data.drop 65).take 32
        expected_amount := leToNat ((a3.data.drop 97).take 8) } := by
    rw [Escrow.unpack_unchecked, if_neg hnlt]
  have hpk : Escrow.pack
      { is_initialized := true
        initializer_pubkey := a0.key
        temp_token_account_pubkey := a1.key
        initializer_token_to_receive_account_pubkey := a2.key
        expected_amount := amount } a3.data =
      .ok (Escrow.encodeBytes (initRecord a0 a1 a2 amount)
        ++ a3.data.drop Escrow.LEN) := by
    rw [Escrow.pack, if_neg hnlt]; rfl
  have hsa : set_authority a5.key a1.key
      (some (env.findPda [escrowSeed] pid).1) AuthorityType.AccountOwner
      a0.key [a0.key] = .ok (initEscrowCall env pid a0 a1 a5) := by
    rw [set_authority, if_pos htp]; rfl
  simp [Processor.process_init_escrow, next_account_info, hs, hown, hrent,
    hexempt, hup, hflag, hpk, hsa, hinv]

/-- With fewer than six account references, `process_init_escrow` never
succeeds. -/
theorem process_init_escrow_short_fails (env : Env) (pid : Pubkey)
    (amount : Nat) :
    ∀ accounts : List AccountInfo, accounts.length < 6 →
      (Processor.process_init_escrow env accounts amount pid).1 ≠
        Except.ok () := by
  intro accounts hlen
  obtain _ | ⟨a0, accounts⟩ := accounts
  · simp [Processor.process_init_escrow, next_account_info]
  obtain _ | ⟨a1, accounts⟩ := accounts
  · simp only [Processor.process_init_escrow, next_account_info]
    split <;> simp
  obtain _ | ⟨a2, accounts⟩ := accounts
  · simp only [Processor.process_init_escrow, next_account_info]
    split <;> simp
  obtain _ | ⟨a3, accounts⟩ := accounts
  · simp only [Processor.process_init_escrow, next_account_info]
    split <;> (try split) <;> simp
  obtain _ | ⟨a4, accounts⟩ := accounts
  · simp only [Processor.process_init_escrow, next_account_info]
    split <;> (try split) <;> simp
  obtain _ | ⟨a5, accounts⟩ := accounts
  · simp only [Processor.process_init_escrow, next_account_info]
    split <;> (try split) <;> (try split) <;> (try split) <;>
      (try split) <;> (try split) <;> (try split) <;> simp
  · simp only [List.length_cons] at hlen
    omega

/-- Inversion of a successful `process_init_escrow`: the previously
stored record decoded as uninitialized, and the staged buffer write is
the encoding of the freshly populated (initialized) record. -/
theorem process_init_escrow_ok_state (env : Env) (pid : Pubkey)
    (amount : Nat) (a0 a1 a2 a3 a4 a5 : AccountInfo)
    (rest : List AccountInfo) (eff : Effects)
    (h : Processor.process_init_escrow env
        (a0 :: a1 :: a2 :: a3 :: a4 :: a5 :: rest) amount pid =
      (.ok (), eff)) :
    ∃ r, Escrow.unpack_unchecked a3.data = .ok r ∧
      r.is_initialized = false ∧
      eff.escrowWrite = some (Escrow.encodeBytes (initRecord a0 a1 a2 amount)
        ++ a3.data.drop Escrow.LEN) := by
  simp only [Processor.process_init_escrow, next_account_info] at h
  split at h
  · simp at h
  split at h
  · simp at h
  split at h
  · simp at h
  rename_i f hrent
  split at h
  · simp at h
  split at h
  · simp at h
  rename_i r hup
  split at h
  · simp at h
  rename_i hninit
  split at h
  · simp at h
  rename_i newData hpack
  split at h
  · simp at h
  rename_i call hsa
  split at h
  · simp at h
  rename_i u hinv
  refine ⟨r, hup, by simpa using hninit, ?_⟩
  have heff : eff = { escrowWrite := some newData, calls := [call] } :=
    (congrArg Prod.snd h).symm
  rw [Escrow.pack] at hpack
  split at hpack
  · simp at hpack
  have hnew : newData = Escrow.encodeBytes (initRecord a0 a1 a2 amount)
      ++ a3.data.drop Escrow.LEN := by
    simp only [Except.ok.injEq] at hpack
    rw [← hpack]
    rfl
  rw [heff, hnew]

/-! ### Claims -/

/-- C1: processing `InitEscrow{amount}` with a signing initializer, an
expected-receive account owned by the custody service, a fresh zeroed
rent-exempt escrow-record account, the custody program account supplied
and the external call succeeding, succeeds end to end: the staged write
is the record carrying the three account keys in order and the amount,
decodable back to exactly that initialized record, and exactly one
authority-change call is issued, retargeting the temporary custody
account to the derived program address. -/
theorem init_escrow_end_to_end (env : Env) (pid : Pubkey) (amount : Nat)
    (a0 a1 a2 a3 a4 a5 : AccountInfo) (rest : List AccountInfo)
    (f : Nat → Nat → Bool) (n : Nat)
    (hs : a0.is_signer = true)
    (hown : a2.owner = spl_token_id)
    (hzero : a3.data = List.replicate n 0)
    (hn : Escrow.LEN ≤ n)
    (hrent : env.rentFromAccount a4 = .ok f)
    (hexempt : f a3.lamports a3.data.length = true)
    (htp : a5.key = spl_token_id)
    (hinv : env.invoke (initEscrowCall env pid a0 a1 a5) = .ok ())
    (hk0 : ValidPubkey a0.key) (hk1 : ValidPubkey a1.key)
    (hk2 : ValidPubkey a2.key) (ham : amount < 2 ^ 64) :
    Processor.process env pid (a0 :: a1 :: a2 :: a3 :: a4 :: a5 :: rest)
        (0 :: u64ToLe 8 amount) =
      (.ok (),
        { escrowWrite := some (Escrow.encodeBytes (initRecord a0 a1 a2 amount)
            ++ a3.data.drop Escrow.LEN)
          calls := [initEscrowCall env pid a0 a1 a5] }) ∧
    Escrow.unpack_unchecked (Escrow.encodeBytes (initRecord a0 a1 a2 amount)
        ++ a3.data.drop Escrow.LEN) = .ok (initRecord a0 a1 a2 amount) := by
  have hsize : Escrow.LEN ≤ a3.data.length := by
    rw [hzero, List.length_replicate]; exact hn
  have hflag : a3.data.headI = 0 := by
    rw [hzero]; cases n <;> simp [List.replicate]
  constructor
  · simp only [Processor.process, unpack_init_data amount ham]
    exact process_init_escrow_ok_eq env pid amount a0 a1 a2 a3 a4 a5 rest f
      hs hown hrent hexempt hsize hflag htp hinv
  · exact unpack_encodeBytes_append _ _ ⟨hk0, hk1, hk2, ham⟩

/-- Concrete instance of C1 with amount 1000000. -/
theorem init_escrow_end_to_end_witness :
    Processor.process testEnv pidw
        [initializerAcct, tempAcct, receiveAcct, escrowAcct, rentAcct,
          tokenProgAcct]
        (0 :: u64ToLe 8 1000000) =
      (.ok (),
        { escrowWrite := some (Escrow.encodeBytes
            (initRecord initializerAcct tempAcct receiveAcct 1000000)
            ++ escrowAcct.data.drop Escrow.LEN)
          calls := [initEscrowCall testEnv pidw initializerAcct tempAcct
            tokenProgAcct] }) ∧
    Escrow.unpack_unchecked (Escrow.encodeBytes
        (initRecord initializerAcct tempAcct receiveAcct 1000000)
        ++ escrowAcct.data.drop Escrow.LEN) =
      .ok (initRecord initializerAcct tempAcct receiveAcct 1000000) :=
  init_escrow_end_to_end testEnv pidw 1000000 initializerAcct tempAcct
    receiveAcct escrowAcct rentAcct tokenProgAcct []
    (fun lam len => decide (len * 10 ≤ lam)) 105
    rfl rfl rfl (by decide) rfl (by decide) rfl rfl
    (by decide) (by decide) (by decide) (by decide)

/-- C10: with amount 0 and all other preconditions holding, processing
succeeds and persists a record whose expected amount is 0: no minimum
or non-zero check exists anywhere on the path. -/
theorem zero_amount_accepted (env : Env) (pid : Pubkey)
    (a0 a1 a2 a3 a4 a5 : AccountInfo) (rest : List AccountInfo)
    (f : Nat → Nat → Bool) (n : Nat)
    (hs : a0.is_signer = true)
    (hown : a2.owner = spl_token_id)
    (hzero : a3.data = List.replicate n 0)
    (hn : Escrow.LEN ≤ n)
    (hrent : env.rentFromAccount a4 = .ok f)
    (hexempt : f a3.lamports a3.data.length = true)
    (htp : a5.key = spl_token_id)
    (hinv : env.invoke (initEscrowCall env pid a0 a1 a5) = .ok ())
    (hk0 : ValidPubkey a0.key) (hk1 : ValidPubkey a1.key)
    (hk2 : ValidPubkey a2.key) :
    Processor.process env pid (a0 :: a1 :: a2 :: a3 :: a4 :: a5 :: rest)
        (0 :: u64ToLe 8 0) =
      (.ok (),
        { escrowWrite := some (Escrow.encodeBytes (initRecord a0 a1 a2 0)
            ++ a3.data.drop Escrow.LEN)
          calls := [initEscrowCall env pid a0 a1 a5] }) ∧
    Escrow.unpack_unchecked (Escrow.encodeBytes (initRecord a0 a1 a2 0)
        ++ a3.data.drop Escrow.LEN) = .ok (initRecord a0 a1 a2 0) ∧
    (initRecord a0 a1 a2 0).expected_amount = 0 := by
  have hsize : Escrow.LEN ≤ a3.data.length := by
    rw [hzero, List.length_replicate]; exact hn
  have hflag : a3.data.headI = 0 := by
    rw [hzero]; cases n <;> simp [List.replicate]
  refine ⟨?_, ?_, rfl⟩
  · simp only [Processor.process, unpack_init_data 0 (by norm_num)]
    exact process_init_escrow_ok_eq env pid 0 a0 a1 a2 a3 a4 a5 rest f
      hs hown hrent hexempt hsize hflag htp hinv
  · exact unpack_encodeBytes_append _ _ ⟨hk0, hk1, hk2, by simp [initRecord]⟩

/-- Concrete instance of C10. -/
theorem zero_amount_accepted_witness :
    Processor.process testEnv pidw
        [initializerAcct, tempAcct, receiveAcct, escrowAcct, rentAcct,
          tokenProgAcct]
        (0 :: u64ToLe 8 0) =
      (.ok (),
        { escrowWrite := some (Escrow.encodeBytes
            (initRecord initializerAcct tempAcct receiveAcct 0)
            ++ escrowAcct.data.drop Escrow.LEN)
          calls := [initEscrowCall testEnv pidw initializerAcct tempAcct
            tokenProgAcct] }) ∧
    Escrow.unpack_unchecked (Escrow.encodeBytes
        (initRecord initializerAcct tempAcct receiveAcct 0)
        ++ escrowAcct.data.drop Escrow.LEN) =
      .ok (initRecord initializerAcct tempAcct receiveAcct 0) ∧
    (initRecord initializerAcct tempAcct receiveAcct 0).expected_amount = 0 :=
  zero_amount_accepted testEnv pidw initializerAcct tempAcct
    receiveAcct escrowAcct rentAcct tokenProgAcct []
    (fun lam len => decide (len * 10 ≤ lam)) 105
    rfl rfl rfl (by decide) rfl (by decide) rfl rfl
    (by decide) (by decide) (by decide)

/-- C2: an invocation of `process` that returns an error leaves nothing
observable behind the host boundary: the account list (in particular the
escrow-record buffer) is unchanged and no external call is effective. -/
theorem failed_instruction_atomic (env : Env) (pid : Pubkey)
    (accounts : List AccountInfo) (data : List Nat) (e : ProgramError)
    (h : (Processor.process env pid accounts data).1 = .error e) :
    hostExecute env pid accounts data = (accounts, []) := by
  unfold hostExecute
  rcases hq : Processor.process env pid accounts data with ⟨r, eff⟩
  rw [hq] at h
  cases r with
  | error e2 => rfl
  | ok u => exact absurd h (by simp)

/-- Concrete instance of C2: a malformed payload fails, and the host
commits nothing. -/
theorem failed_instruction_atomic_witness :
    hostExecute testEnv pidw [escrowAcct] [5] = ([escrowAcct], []) :=
  failed_instruction_atomic testEnv pidw [escrowAcct] [5]
    .InvalidInstructionData rfl

/-- C4: a non-signing initializer fails with `MissingRequiredSignature`,
with no buffer write and no external call staged. -/
theorem missing_signature_rejected (env : Env) (pid : Pubkey)
    (amount : Nat) (data : List Nat) (a0 : AccountInfo)
    (rest : List AccountInfo)
    (hd : EscrowInstruction.unpack data = .ok (.InitEscrow amount))
    (hs : a0.is_signer = false) :
    Processor.process env pid (a0 :: rest) data =
      (.error .MissingRequiredSignature, noEffects) := by
  simp [Processor.process, hd, Processor.process_init_escrow,
    next_account_info, hs]

/-- Concrete instance of C4. -/
theorem missing_signature_rejected_witness :
    Processor.process testEnv pidw
        [nonSignerAcct, tempAcct, receiveAcct, escrowAcct, rentAcct,
          tokenProgAcct]
        (0 :: u64ToLe 8 3) =
      (.error .MissingRequiredSignature, noEffects) :=
  missing_signature_rejected testEnv pidw 3 (0 :: u64ToLe 8 3)
    nonSignerAcct [tempAcct, receiveAcct, escrowAcct, rentAcct, tokenProgAcct]
    (unpack_init_data 3 (by norm_num)) rfl

/-- C3: a record that already decodes as initialized is rejected with
`AccountAlreadyInitialized` before any mutation, even with a well-formed
amount and accounts; and the slot state machine only moves forward: any
successful run starts from an uninitialized record and stages a write
whose record is initialized. -/
theorem reinit_rejected_two_state :
    (∀ (env : Env) (pid : Pubkey) (amount : Nat)
        (a0 a1 a2 a3 a4 : AccountInfo) (rest : List AccountInfo)
        (f : Nat → Nat → Bool) (r : Escrow),
      a0.is_signer = true → a2.owner = spl_token_id →
      env.rentFromAccount a4 = .ok f →
      f a3.lamports a3.data.length = true →
      Escrow.unpack_unchecked a3.data = .ok r →
      r.is_initialized = true →
      Processor.process_init_escrow env (a0 :: a1 :: a2 :: a3 :: a4 :: rest)
          amount pid = (.error .AccountAlreadyInitialized, noEffects)) ∧
    (∀ (env : Env) (pid : Pubkey) (amount : Nat)
        (a0 a1 a2 a3 a4 a5 : AccountInfo) (rest : List AccountInfo)
        (eff : Effects),
      Processor.process_init_escrow env
          (a0 :: a1 :: a2 :: a3 :: a4 :: a5 :: rest) amount pid =
        (.ok (), eff) →
      ∃ r, Escrow.unpack_unchecked a3.data = .ok r ∧
        r.is_initialized = false ∧
        eff.escrowWrite = some (Escrow.encodeBytes (initRecord a0 a1 a2 amount)
          ++ a3.data.drop Escrow.LEN) ∧
        (initRecord a0 a1 a2 amount).is_initialized = true) := by
  constructor
  · intro env pid amount a0 a1 a2 a3 a4 rest f r hs hown hrent hexempt hup hinit
    simp [Processor.process_init_escrow, next_account_info, hs, hown, hrent,
      hexempt, hup, hinit]
  · intro env pid amount a0 a1 a2 a3 a4 a5 rest eff h
    obtain ⟨r, h1, h2, h3⟩ :=
      process_init_escrow_ok_state env pid amount a0 a1 a2 a3 a4 a5 rest eff h
    exact ⟨r, h1, h2, h3, rfl⟩

/-- Concrete instance of C3: the already-initialized record is rejected
with no effects. -/
theorem reinit_rejected_two_state_witness :
    Processor.process_init_escrow testEnv
        [initializerAcct, tempAcct, receiveAcct, escrowAcctInit, rentAcct]
        5 pidw = (.error .AccountAlreadyInitialized, noEffects) :=
  reinit_rejected_two_state.1 testEnv pidw 5 initializerAcct tempAcct
    receiveAcct escrowAcctInit rentAcct []
    (fun lam len => decide (len * 10 ≤ lam))
    { is_initialized := true
      initializer_pubkey := List.replicate 32 0
      temp_token_account_pubkey := List.replicate 32 0
      initializer_token_to_receive_account_pubkey := List.replicate 32 0
      expected_amount := 0 }
    rfl rfl rfl (by decide) (by decide) rfl

/-- C5: an escrow-record account below the exemption threshold is
rejected with `AccountNotRentExempt` with no constraint at all on the
record buffer (it is not decoded) and no state staged. -/
theorem rent_not_exempt_rejected (env : Env) (pid : Pubkey) (amount : Nat)
    (a0 a1 a2 a3 a4 : AccountInfo) (rest : List AccountInfo)
    (f : Nat → Nat → Bool)
    (hs : a0.is_signer = true)
    (hown : a2.owner = spl_token_id)
    (hrent : env.rentFromAccount a4 = .ok f)
    (hexempt : f a3.lamports a3.data.length = false) :
    Processor.process_init_escrow env (a0 :: a1 :: a2 :: a3 :: a4 :: rest)
        amount pid = (.error .AccountNotRentExempt, noEffects) := by
  simp [Processor.process_init_escrow, next_account_info, hs, hown, hrent,
    hexempt]

/-- Concrete instance of C5: the underfunded record account is rejected
although its buffer is too short to decode at all, showing the rent
check precedes decoding. -/
theorem rent_not_exempt_rejected_witness :
    Processor.process_init_escrow testEnv
        [initializerAcct, tempAcct, receiveAcct, poorEscrowAcct, rentAcct]
        5 pidw = (.error .AccountNotRentExempt, noEffects) :=
  rent_not_exempt_rejected testEnv pidw 5 initializerAcct tempAcct
    receiveAcct poorEscrowAcct rentAcct []
    (fun lam len => decide (len * 10 ≤ lam))
    rfl rfl rfl (by decide)

/-- C6 counterexample: with a non-signing initializer, an invocation
whose expected-receive account is not owned by the custody service fails
with `MissingRequiredSignature`, not `IncorrectProgramId` — the claimed
error is not independent of the other accounts' validity. -/
theorem receive_owner_independence_cex :
    badReceiveAcct.owner ≠ spl_token_id ∧
    (Processor.process_init_escrow testEnv
        [nonSignerAcct, tempAcct, badReceiveAcct, escrowAcct, rentAcct,
          tokenProgAcct] 7 pidw).1 ≠
      Except.error .IncorrectProgramId := by
  constructor
  · decide
  · intro h
    have h2 : (Processor.process_init_escrow testEnv
        [nonSignerAcct, tempAcct, badReceiveAcct, escrowAcct, rentAcct,
          tokenProgAcct] 7 pidw).1 =
        Except.error .MissingRequiredSignature := by decide
    rw [h2] at h
    simp at h

/-- C6 amended: provided the initializer-signature check passes, an
expected-receive account not owned by the custody service fails with
`IncorrectProgramId`, independent of the validity of every account
consumed after it and with nothing staged. -/
theorem receive_owner_rejected (env : Env) (pid : Pubkey) (amount : Nat)
    (a0 a1 a2 : AccountInfo) (rest : List AccountInfo)
    (hs : a0.is_signer = true)
    (hown : a2.owner ≠ spl_token_id) :
    Processor.process_init_escrow env (a0 :: a1 :: a2 :: rest) amount pid =
      (.error .IncorrectProgramId, noEffects) := by
  simp [Processor.process_init_escrow, next_account_info, hs, hown]

/-- Concrete instance of the amended C6. -/
theorem receive_owner_rejected_witness :
    Processor.process_init_escrow testEnv
        [initializerAcct, tempAcct, badReceiveAcct] 7 pidw =
      (.error .IncorrectProgramId, noEffects) :=
  receive_owner_rejected testEnv pidw 7 initializerAcct tempAcct
    badReceiveAcct [] rfl (by decide)

/-- C7 counterexample: an invocation with a single account — fewer than
the required six — whose initializer does not sign fails with
`MissingRequiredSignature`, not with the missing-account error, so the
failure is neither the claimed error nor prior to all validation. -/
theorem missing_accounts_cex :
    ([nonSignerAcct] : List AccountInfo).length < 6 ∧
    (Processor.process_init_escrow testEnv [nonSignerAcct] 7 pidw).1 =
      Except.error .MissingRequiredSignature ∧
    (Processor.process_init_escrow testEnv [nonSignerAcct] 7 pidw).1 ≠
      Except.error .NotEnoughAccountKeys := by
  refine ⟨by decide, by decide, ?_⟩
  intro h
  have h2 : (Processor.process_init_escrow testEnv [nonSignerAcct] 7
      pidw).1 = Except.error .MissingRequiredSignature := by decide
  rw [h2] at h
  simp at h

/-- C7 amended: account consumption is interleaved with validation, so
with fewer than six accounts processing always fails, but the error is
the missing-account error only once every check on the accounts that are
present has passed — in which case, with five accounts, the failure
surfaces after validation and after the record write has been staged. -/
theorem fewer_accounts_always_fail :
    (∀ (env : Env) (pid : Pubkey) (amount : Nat)
        (accounts : List AccountInfo), accounts.length < 6 →
      ∃ e, (Processor.process_init_escrow env accounts amount pid).1 =
        Except.error e) ∧
    (∀ (env : Env) (pid : Pubkey) (amount : Nat)
        (a0 a1 a2 a3 a4 : AccountInfo) (f : Nat → Nat → Bool) (r : Escrow),
      a0.is_signer = true → a2.owner = spl_token_id →
      env.rentFromAccount a4 = .ok f →
      f a3.lamports a3.data.length = true →
      Escrow.unpack_unchecked a3.data = .ok r →
      r.is_initialized = false →
      Escrow.LEN ≤ a3.data.length →
      Processor.process_init_escrow env [a0, a1, a2, a3, a4] amount pid =
        (.error .NotEnoughAccountKeys,
          { escrowWrite := some (Escrow.encodeBytes (initRecord a0 a1 a2 amount)
              ++ a3.data.drop Escrow.LEN)
            calls := [] })) := by
  constructor
  · intro env pid amount accounts hlen
    rcases hq : (Processor.process_init_escrow env accounts amount pid).1
      with e | u
    · exact ⟨e, rfl⟩
    · cases u
      exact absurd hq
        (process_init_escrow_short_fails env pid amount accounts hlen)
  · intro env pid amount a0 a1 a2 a3 a4 f r hs hown hrent hexempt hup hninit
      hsize
    have hnlt : ¬ a3.data.length < Escrow.LEN := by omega
    have hpk : Escrow.pack
        { is_initialized := true
          initializer_pubkey := a0.key
          temp_token_account_pubkey := a1.key
          initializer_token_to_receive_account_pubkey := a2.key
          expected_amount := amount } a3.data =
        .ok (Escrow.encodeBytes (initRecord a0 a1 a2 amount)
          ++ a3.data.drop Escrow.LEN) := by
      rw [Escrow.pack, if_neg hnlt]; rfl
    simp [Processor.process_init_escrow, next_account_info, hs, hown, hrent,
      hexempt, hup, hninit, hpk]

/-- Concrete instances of both halves of the amended C7: an empty
account list fails, and five otherwise-valid accounts fail with the
missing-account error while the record write is already staged. -/
theorem fewer_accounts_always_fail_witness :
    (∃ e, (Processor.process_init_escrow testEnv [] 9 pidw).1 =
      Except.error e) ∧
    Processor.process_init_escrow testEnv
        [initializerAcct, tempAcct, receiveAcct, escrowAcct, rentAcct]
        9 pidw =
      (.error .NotEnoughAccountKeys,
        { escrowWrite := some (Escrow.encodeBytes
            (initRecord initializerAcct tempAcct receiveAcct 9)
            ++ escrowAcct.data.drop Escrow.LEN)
          calls := [] }) :=
  ⟨fewer_accounts_always_fail.1 testEnv pidw 9 [] (by decide),
    fewer_accounts_always_fail.2 testEnv pidw 9 initializerAcct tempAcct
      receiveAcct escrowAcct rentAcct
      (fun lam len => decide (len * 10 ≤ lam))
      { is_initialized := false
        initializer_pubkey := List.replicate 32 0
        temp_token_account_pubkey := List.replicate 32 0
        initializer_token_to_receive_account_pubkey := List.replicate 32 0
        expected_amount := 0 }
      rfl rfl rfl (by decide) (by decide) rfl (by decide)⟩

/-- C8: for every record with valid field values and every buffer at
least as long as the fixed width, encoding into the buffer and decoding
the result reproduces the record exactly. -/
theorem escrow_encode_decode_roundtrip (e : Escrow) (buf : List Nat)
    (hv : e.Valid) (hb : Escrow.LEN ≤ buf.length) :
    ∃ out, Escrow.pack e buf = Except.ok out ∧
      Escrow.unpack_unchecked out = Except.ok e := by
  refine ⟨Escrow.encodeBytes e ++ buf.drop Escrow.LEN, ?_, ?_⟩
  · rw [Escrow.pack, if_neg (by omega)]
  · exact unpack_encodeBytes_append e _ hv

/-- Concrete instance of C8 at the maximal u64 amount. -/
theorem escrow_encode_decode_roundtrip_witness :
    ∃ out,
      Escrow.pack
        { is_initialized := true
          initializer_pubkey := samplePk 1
          temp_token_account_pubkey := samplePk 2
          initializer_token_to_receive_account_pubkey := samplePk 3
          expected_amount := 2 ^ 64 - 1 } (List.replicate 105 0) =
        Except.ok out ∧
      Escrow.unpack_unchecked out = Except.ok
        { is_initialized := true
          initializer_pubkey := samplePk 1
          temp_token_account_pubkey := samplePk 2
          initializer_token_to_receive_account_pubkey := samplePk 3
          expected_amount := 2 ^ 64 - 1 } :=
  escrow_encode_decode_roundtrip _ _
    ⟨by decide, by decide, by decide, by norm_num⟩ (by decide)

/-- C9: a malformed payload — an unrecognized leading tag byte or a
payload shorter than 9 bytes — fails with `InvalidInstructionData` for
every account list, with no effect staged and no account touched. -/
theorem malformed_payload_rejected (env : Env) (pid : Pubkey)
    (accounts : List AccountInfo) (data : List Nat)
    (h : data.length < 9 ∨ data.headI ≠ 0) :
    Processor.process env pid accounts data =
      (.error .InvalidInstructionData, noEffects) := by
  have hu : EscrowInstruction.unpack data =
      .error .InvalidInstructionData := by
    match data with
    | [] => rfl
    | t :: rest =>
      by_cases ht : t = 0
      · subst ht
        have hr : rest.length < 8 := by
          rcases h with h | h
          · simpa [Nat.succ_lt_succ_iff] using h
          · exact absurd rfl h
        simp [EscrowInstruction.unpack, hr]
      · simp [EscrowInstruction.unpack, ht]
  simp [Processor.process, hu]

/-- Concrete instance of C9: an unknown tag byte. -/
theorem malformed_payload_rejected_witness :
    Processor.process testEnv pidw
        [initializerAcct, tempAcct, receiveAcct, escrowAcct, rentAcct,
          tokenProgAcct] [3, 0, 0, 0, 0, 0, 0, 0, 0] =
      (.error .InvalidInstructionData, noEffects) :=
  malformed_payload_rejected testEnv pidw
    [initializerAcct, tempAcct, receiveAcct, escrowAcct, rentAcct,
      tokenProgAcct] [3, 0, 0, 0, 0, 0, 0, 0, 0] (Or.inr (by decide))
